import Mathlib

/-!
Verification of the performance-threshold gate script
(`optimization-scripts/performance-check.js`).

The script reads a Lighthouse report, derives four integer category scores
and six raw metric values, compares each against a fixed threshold table,
appends a capped history record, optionally generates an HTML report, and
exits 0/1.  Numbers are modelled as exact rationals (the script's inputs are
small decimal values for which JavaScript float arithmetic agrees with exact
arithmetic on every comparison appearing in the claims); `Math.round` is
modelled as `jsRound q = ⌊q + 1/2⌋`, which is its exact semantics on numbers.
File-system and environment effects are modelled by an explicit `World`
record: flags say whether the report file exists, whether it parses, and
whether the history / report writes throw, so control flow can be traced
exactly as in the source.
-/

namespace PerfCheck

/-- Pass/fail status recorded for one evaluated score or metric
(the `status` field pushed into `results` by the source). -/
inductive RStatus
  | passed
  | failed
  deriving DecidableEq

/-- One record of the `results` array built by `checkPerformance`:
`{type, category, value, threshold, status}`.  The source stores the
(possibly rounded) numeric `value` as a number; for both scores and metrics
the stored value is an integer (`Math.round` is applied), hence `ℤ`.
`threshold` is `THRESHOLDS[category]`, which can be `undefined` (`none`). -/
structure EvalResult where
  rtype : String
  category : String
  value : ℤ
  threshold : Option ℚ
  status : RStatus
  deriving DecidableEq

/-- `lhr.categories`: the four fractional category scores (0.0 – 1.0). -/
structure Categories where
  performance : ℚ
  accessibility : ℚ
  bestPractices : ℚ
  seo : ℚ
  deriving DecidableEq

/-- `lhr.audits`: the six numeric audit values read by the script
(`max-potential-fid` is read into the `first-input-delay` slot). -/
structure Audits where
  firstContentfulPaint : ℚ
  largestContentfulPaint : ℚ
  maxPotentialFid : ℚ
  cumulativeLayoutShift : ℚ
  speedIndex : ℚ
  interactive : ℚ
  deriving DecidableEq

/-- A successfully parsed Lighthouse report (the `lhr` object). -/
structure Report where
  categories : Categories
  audits : Audits
  deriving DecidableEq

/-- One entry of the persisted history log (`historyData` in the source):
`{timestamp, commit, branch, scores, metrics}`. -/
structure HistoryEntry where
  timestamp : String
  commit : String
  branch : String
  scores : List (String × ℤ)
  metrics : List (String × ℚ)
  deriving DecidableEq

/-- The `THRESHOLDS` constant of the source, in declaration order. -/
def THRESHOLDS : List (String × ℚ) :=
  [ ("performance", 90)
  , ("accessibility", 90)
  , ("best-practices", 90)
  , ("seo", 90)
  , ("first-contentful-paint", 1800)
  , ("largest-contentful-paint", 2500)
  , ("first-input-delay", 100)
  , ("cumulative-layout-shift", 1/10)
  , ("speed-index", 3000)
  , ("interactive", 3500) ]

/-- `THRESHOLDS[name]`: `none` models JavaScript `undefined`. -/
def thresholdFor (name : String) : Option ℚ :=
  (THRESHOLDS.find? (fun p => p.1 == name)).map Prod.snd

/-- JavaScript `Math.round`: round to nearest, halves toward `+∞`. -/
def jsRound (q : ℚ) : ℤ := ⌊q + 1/2⌋

/-- JavaScript `score < threshold` where `threshold` may be `undefined`
(any comparison with `undefined` is `false`). -/
def jsLtOpt (s : ℤ) : Option ℚ → Bool
  | none => false
  | some t => decide ((s : ℚ) < t)

/-- The `scores` object (lines 38–43): four integer percentages obtained by
`Math.round(lhr.categories.<c>.score * 100)`, in declaration order. -/
def extractScores (r : Report) : List (String × ℤ) :=
  [ ("performance", jsRound (r.categories.performance * 100))
  , ("accessibility", jsRound (r.categories.accessibility * 100))
  , ("best-practices", jsRound (r.categories.bestPractices * 100))
  , ("seo", jsRound (r.categories.seo * 100)) ]

/-- The `metrics` object (lines 45–52): six raw audit values, in
declaration order. -/
def extractMetrics (r : Report) : List (String × ℚ) :=
  [ ("first-contentful-paint", r.audits.firstContentfulPaint)
  , ("largest-contentful-paint", r.audits.largestContentfulPaint)
  , ("first-input-delay", r.audits.maxPotentialFid)
  , ("cumulative-layout-shift", r.audits.cumulativeLayoutShift)
  , ("speed-index", r.audits.speedIndex)
  , ("interactive", r.audits.interactive) ]

/-- Body of the score loop (lines 61–86): look the threshold up, flip the
`passed` flag and push a `failed` record when `score < threshold`,
otherwise push a `passed` record.  The accumulator is the mutable pair
`(passed, results)`. -/
def scoreStep (acc : Bool × List EvalResult) (cs : String × ℤ) :
    Bool × List EvalResult :=
  let threshold := thresholdFor cs.1
  if jsLtOpt cs.2 threshold then
    (false, acc.2 ++ [{ rtype := "score", category := cs.1, value := cs.2,
                        threshold := threshold, status := RStatus.failed }])
  else
    (acc.1, acc.2 ++ [{ rtype := "score", category := cs.1, value := cs.2,
                        threshold := threshold, status := RStatus.passed }])

/-- Body of the metric loop (lines 91–119): `if (!threshold) return;` skips
the entry when the lookup is `undefined` or the value is `0` (the falsy
numbers; rationals have no NaN); otherwise the comparison uses the raw
value while the pushed record stores `Math.round(value)`. -/
def metricStep (acc : Bool × List EvalResult) (mv : String × ℚ) :
    Bool × List EvalResult :=
  match thresholdFor mv.1 with
  | none => acc
  | some t =>
    if t = 0 then acc
    else if t < mv.2 then
      (false, acc.2 ++ [{ rtype := "metric", category := mv.1,
                          value := jsRound mv.2, threshold := some t,
                          status := RStatus.failed }])
    else
      (acc.1, acc.2 ++ [{ rtype := "metric", category := mv.1,
                          value := jsRound mv.2, threshold := some t,
                          status := RStatus.passed }])

/-- Lines 55–119: `let passed = true; const results = [];` followed by the
two `forEach` loops over `Object.entries(scores)` and
`Object.entries(metrics)`. -/
def checkThresholds (scores : List (String × ℤ)) (metrics : List (String × ℚ)) :
    Bool × List EvalResult :=
  metrics.foldl metricStep (scores.foldl scoreStep (true, []))

/-- Lines 214–219 of `savePerformanceHistory`: `history.push(historyData)`
then `if (history.length > 50) history = history.slice(-50)`
(`slice(-50)` keeps the last 50 elements). -/
def appendCapped (history : List HistoryEntry) (entry : HistoryEntry) :
    List HistoryEntry :=
  let h := history ++ [entry]
  if 50 < h.length then h.drop (h.length - 50) else h

/-- The process environment and file system as seen by one run. -/
structure World where
  reportExists : Bool
  parsedReport : Option Report
  history : List HistoryEntry
  historyIOFails : Bool
  reportWriteFails : Bool
  envCommit : Option String
  envBranch : Option String
  timestamp : String
  deriving DecidableEq

/-- `historyData` (lines 198–204): commit and branch come from the
environment, defaulting to the literal string `"local"`. -/
def mkHistoryData (w : World) (scores : List (String × ℤ))
    (metrics : List (String × ℚ)) : HistoryEntry :=
  { timestamp := w.timestamp
  , commit := w.envCommit.getD "local"
  , branch := w.envBranch.getD "local"
  , scores := scores
  , metrics := metrics }

/-- `savePerformanceHistory` (lines 197–233): returns the on-disk history
log after the call.  The whole read-push-cap-write sequence sits in a
`try`/`catch` whose handler only warns, so any read or write failure
(modelled by `historyIOFails`) leaves the stored log unchanged. -/
def savePerformanceHistory (w : World) (scores : List (String × ℤ))
    (metrics : List (String × ℚ)) : List HistoryEntry :=
  if w.historyIOFails then w.history
  else appendCapped w.history (mkHistoryData w scores metrics)

/-- Observable outcome of one run of `checkPerformance`:
the exit status, the history log left on disk, the `results` array and
`passed` flag (trivial for runs exiting before evaluation), and whether the
HTML report was written successfully. -/
structure RunOutcome where
  exitCode : Nat
  finalHistory : List HistoryEntry
  results : List EvalResult
  passed : Bool
  reportGenerated : Bool
  deriving DecidableEq

/-- `checkPerformance` (lines 24–150).  Control flow of the source:
missing report file exits 1 before anything else (line 31); a parse or
field-access failure throws into the blanket `catch` (line 146) and exits 1
before the history code runs; otherwise the two threshold loops run,
`savePerformanceHistory` is called (line 122), the console-only bundle-size
check runs, and `generatePerformanceReport` is called inside the `try`
block before `process.exit(0)` / `process.exit(1)` — so a throwing report
write (modelled by `reportWriteFails`) lands in the `catch` and exits 1. -/
def checkPerformance (w : World) : RunOutcome :=
  if w.reportExists = false then
    { exitCode := 1, finalHistory := w.history, results := [],
      passed := true, reportGenerated := false }
  else
    match w.parsedReport with
    | none =>
      { exitCode := 1, finalHistory := w.history, results := [],
        passed := true, reportGenerated := false }
    | some r =>
      let scores := extractScores r
      let metrics := extractMetrics r
      let pr := checkThresholds scores metrics
      let newHistory := savePerformanceHistory w scores metrics
      if w.reportWriteFails then
        { exitCode := 1, finalHistory := newHistory, results := pr.2,
          passed := pr.1, reportGenerated := false }
      else
        { exitCode := if pr.1 then 0 else 1, finalHistory := newHistory,
          results := pr.2, passed := pr.1, reportGenerated := true }

/-! ### Derived closed forms used to characterise the two loops -/

/-- The record `scoreStep` pushes for one entry of the score loop. -/
def scoreRecord (cs : String × ℤ) : EvalResult :=
  { rtype := "score", category := cs.1, value := cs.2,
    threshold := thresholdFor cs.1,
    status := if jsLtOpt cs.2 (thresholdFor cs.1) then RStatus.failed
              else RStatus.passed }

/-- Whether one score entry leaves the `passed` flag alone. -/
def scoreOk (cs : String × ℤ) : Bool := !jsLtOpt cs.2 (thresholdFor cs.1)

/-- The record `metricStep` pushes for one entry of the metric loop
(`none` when the entry is skipped by `if (!threshold) return;`). -/
def metricEval (mv : String × ℚ) : Option EvalResult :=
  match thresholdFor mv.1 with
  | none => none
  | some t =>
    if t = 0 then none
    else some { rtype := "metric", category := mv.1, value := jsRound mv.2,
                threshold := some t,
                status := if t < mv.2 then RStatus.failed else RStatus.passed }

/-- Whether one metric entry leaves the `passed` flag alone. -/
def metricOk (mv : String × ℚ) : Bool :=
  match thresholdFor mv.1 with
  | none => true
  | some t => if t = 0 then true else decide (mv.2 ≤ t)

/-! ### Concrete inputs used by the witnesses -/

/-- A report on which every score and metric passes. -/
def passReport : Report :=
  { categories := { performance := 95/100, accessibility := 1,
                    bestPractices := 1, seo := 95/100 }
  , audits := { firstContentfulPaint := 1000, largestContentfulPaint := 2000,
                maxPotentialFid := 50, cumulativeLayoutShift := 5/100,
                speedIndex := 2500, interactive := 3000 } }

/-- A report whose `performance` fractional score is exactly `0.895`
(all other values passing). -/
def boundaryReport : Report :=
  { categories := { performance := 895/1000, accessibility := 1,
                    bestPractices := 1, seo := 1 }
  , audits := { firstContentfulPaint := 1000, largestContentfulPaint := 2000,
                maxPotentialFid := 50, cumulativeLayoutShift := 5/100,
                speedIndex := 2500, interactive := 3000 } }

/-- A report whose `first-contentful-paint` raw value `1800.3` lies strictly
between the threshold `1800` and `1800.5` (all other values passing). -/
def overRoundReport : Report :=
  { categories := { performance := 1, accessibility := 1,
                    bestPractices := 1, seo := 1 }
  , audits := { firstContentfulPaint := 18003/10, largestContentfulPaint := 2000,
                maxPotentialFid := 50, cumulativeLayoutShift := 5/100,
                speedIndex := 2500, interactive := 3000 } }

/-- A fixed history entry. -/
def entry0 : HistoryEntry :=
  { timestamp := "t0", commit := "c0", branch := "b0", scores := [], metrics := [] }

/-- The `i`-th of 50 pairwise-distinct history entries. -/
def histEntry (i : Nat) : HistoryEntry :=
  { timestamp := toString i, commit := "c", branch := "b",
    scores := [], metrics := [] }

/-- A history log holding exactly 50 distinct entries. -/
def fullHistory : List HistoryEntry := (List.range 50).map histEntry

/-- The record appended by the witness run. -/
def newEntry : HistoryEntry :=
  { timestamp := "new", commit := "c", branch := "b",
    scores := [], metrics := [] }

/-- A fully healthy world around `passReport`. -/
def passWorld : World :=
  { reportExists := true, parsedReport := some passReport,
    history := [entry0], historyIOFails := false, reportWriteFails := false,
    envCommit := none, envBranch := none, timestamp := "now" }

/-- The world in which the Lighthouse report file is absent. -/
def missingWorld : World := { passWorld with reportExists := false }

/-- A passing world whose HTML-report write throws. -/
def genFailWorld : World := { passWorld with reportWriteFails := true }

/-- A passing world whose history read/write throws. -/
def histFailWorld : World := { passWorld with historyIOFails := true }

/-! ### Threshold-table lookups -/

theorem thresholdFor_performance : thresholdFor "performance" = some 90 := by rfl

theorem thresholdFor_accessibility : thresholdFor "accessibility" = some 90 := by rfl

theorem thresholdFor_bp : thresholdFor "best-practices" = some 90 := by rfl

theorem thresholdFor_seo : thresholdFor "seo" = some 90 := by rfl

theorem thresholdFor_fcp : thresholdFor "first-contentful-paint" = some 1800 := by rfl

theorem thresholdFor_lcp : thresholdFor "largest-contentful-paint" = some 2500 := by rfl

theorem thresholdFor_fid : thresholdFor "first-input-delay" = some 100 := by rfl

theorem thresholdFor_cls : thresholdFor "cumulative-layout-shift" = some (1/10) := by rfl

theorem thresholdFor_si : thresholdFor "speed-index" = some 3000 := by rfl

theorem thresholdFor_tti : thresholdFor "interactive" = some 3500 := by rfl

theorem thresholdFor_tbt : thresholdFor "total-blocking-time" = none := by rfl

/-! ### Closed forms of the two evaluation loops -/

theorem scoresFoldl_eq (l : List (String × ℤ)) (b : Bool) (rs : List EvalResult) :
    l.foldl scoreStep (b, rs) = (b && l.all scoreOk, rs ++ l.map scoreRecord) := by
  induction l generalizing b rs with
  | nil => simp
  | cons a l ih =>
    simp only [List.foldl_cons, List.all_cons, List.map_cons]
    by_cases h : jsLtOpt a.2 (thresholdFor a.1) = true
    · rw [show scoreStep (b, rs) a
          = (false, rs ++ [scoreRecord a]) by
            simp [scoreStep, scoreRecord, h]]
      rw [ih]
      simp [scoreOk, h, List.append_assoc]
    · rw [show scoreStep (b, rs) a
          = (b, rs ++ [scoreRecord a]) by
            simp [scoreStep, scoreRecord, h]]
      rw [ih]
      simp [scoreOk, h, List.append_assoc]

theorem metricsFoldl_eq (l : List (String × ℚ)) (b : Bool) (rs : List EvalResult) :
    l.foldl metricStep (b, rs) = (b && l.all metricOk, rs ++ l.filterMap metricEval) := by
  induction l generalizing b rs with
  | nil => simp
  | cons a l ih =>
    simp only [List.foldl_cons, List.all_cons, List.filterMap_cons]
    rcases hth : thresholdFor a.1 with _ | t
    · rw [show metricStep (b, rs) a = (b, rs) by simp [metricStep, hth]]
      rw [ih]
      simp [metricEval, metricOk, hth]
    · by_cases h0 : t = 0
      · rw [show metricStep (b, rs) a = (b, rs) by simp [metricStep, hth, h0]]
        rw [ih]
        simp [metricEval, metricOk, hth, h0]
      · by_cases hgt : t < a.2
        · rw [show metricStep (b, rs) a
              = (false, rs ++ [{ rtype := "metric", category := a.1,
                                 value := jsRound a.2, threshold := some t,
                                 status := RStatus.failed }]) by
                simp [metricStep, hth, h0, hgt]]
          rw [ih]
          simp [metricEval, metricOk, hth, h0, hgt, not_le.2 hgt,
                List.append_assoc]
        · rw [show metricStep (b, rs) a
              = (b, rs ++ [{ rtype := "metric", category := a.1,
                             value := jsRound a.2, threshold := some t,
                             status := RStatus.passed }]) by
                simp [metricStep, hth, h0, hgt]]
          rw [ih]
          simp [metricEval, metricOk, hth, h0, hgt, not_lt.1 hgt,
                List.append_assoc]

theorem checkThresholds_eq (scores : List (String × ℤ)) (metrics : List (String × ℚ)) :
    checkThresholds scores metrics =
      (scores.all scoreOk && metrics.all metricOk,
       scores.map scoreRecord ++ metrics.filterMap metricEval) := by
  rw [checkThresholds, scoresFoldl_eq, metricsFoldl_eq]
  simp

/-! ### Per-record status facts -/

theorem rstatus_not_passed (s : RStatus) : ¬ s = RStatus.passed ↔ s = RStatus.failed := by
  cases s <;> simp

theorem scoreRecord_status (cs : String × ℤ) :
    ((scoreRecord cs).status = RStatus.passed) ↔ scoreOk cs = true := by
  by_cases h : jsLtOpt cs.2 (thresholdFor cs.1) = true <;>
    simp [scoreRecord, scoreOk, h]

theorem metricEval_none_ok (mv : String × ℚ) (h : metricEval mv = none) :
    metricOk mv = true := by
  rcases hth : thresholdFor mv.1 with _ | t
  · simp [metricOk, hth]
  · by_cases h0 : t = 0
    · simp [metricOk, hth, h0]
    · simp [metricEval, hth, h0] at h

theorem metricEval_status (mv : String × ℚ) (rec : EvalResult)
    (h : metricEval mv = some rec) :
    (rec.status = RStatus.passed) ↔ metricOk mv = true := by
  rcases hth : thresholdFor mv.1 with _ | t
  · simp [metricEval, hth] at h
  · by_cases h0 : t = 0
    · simp [metricEval, hth, h0] at h
    · by_cases hgt : t < mv.2
      · simp only [metricEval, hth, h0, hgt, if_true, if_false, ite_true,
                   ite_false, Option.some.injEq, if_neg, not_false_iff] at h
        cases h
        simp [metricOk, hth, h0, not_le.2 hgt]
      · simp only [metricEval, hth, h0, hgt, if_true, if_false, ite_true,
                   ite_false, Option.some.injEq, if_neg, not_false_iff] at h
        cases h
        simp [metricOk, hth, h0, not_lt.1 hgt]

/-! ### The aggregate flag against the result records -/

theorem checkThresholds_passed_iff (scores : List (String × ℤ))
    (metrics : List (String × ℚ)) :
    ((checkThresholds scores metrics).1 = true ↔
      ∀ rec ∈ (checkThresholds scores metrics).2, rec.status = RStatus.passed) := by
  rw [checkThresholds_eq]
  simp only [Bool.and_eq_true, List.all_eq_true, List.mem_append, List.mem_map,
             List.mem_filterMap]
  constructor
  · rintro ⟨hs, hm⟩ rec hrec
    rcases hrec with ⟨cs, hcs, rfl⟩ | ⟨mv, hmv, heq⟩
    · exact (scoreRecord_status cs).2 (hs cs hcs)
    · exact (metricEval_status mv rec heq).2 (hm mv hmv)
  · intro hall
    refine ⟨fun cs hcs => ?_, fun mv hmv => ?_⟩
    · exact (scoreRecord_status cs).1 (hall (scoreRecord cs) (Or.inl ⟨cs, hcs, rfl⟩))
    · rcases heval : metricEval mv with _ | rec
      · exact metricEval_none_ok mv heval
      · exact (metricEval_status mv rec heval).1
          (hall rec (Or.inr ⟨mv, hmv, heval⟩))

theorem checkThresholds_failed_iff (scores : List (String × ℤ))
    (metrics : List (String × ℚ)) :
    ((checkThresholds scores metrics).1 = false ↔
      ∃ rec ∈ (checkThresholds scores metrics).2, rec.status = RStatus.failed) := by
  constructor
  · intro hf
    have hne : ¬ ((checkThresholds scores metrics).1 = true) := by simp [hf]
    rw [checkThresholds_passed_iff] at hne
    push_neg at hne
    obtain ⟨rec, hmem, hns⟩ := hne
    exact ⟨rec, hmem, (rstatus_not_passed rec.status).1 hns⟩
  · rintro ⟨rec, hmem, hfail⟩
    rcases hcb : (checkThresholds scores metrics).1 with _ | _
    · rfl
    · have hp := (checkThresholds_passed_iff scores metrics).1 hcb rec hmem
      rw [hp] at hfail
      exact RStatus.noConfusion hfail

/-! ### Closed record shapes on the extracted score and metric lists -/

theorem scoreRecord_at_90 (cs : String × ℤ) (h : thresholdFor cs.1 = some 90) :
    scoreRecord cs =
      { rtype := "score", category := cs.1, value := cs.2, threshold := some 90,
        status := if (90 : ℚ) ≤ (cs.2 : ℚ) then RStatus.passed
                  else RStatus.failed } := by
  simp only [scoreRecord, h, jsLtOpt]
  by_cases hlt : (cs.2 : ℚ) < 90
  · simp [hlt, not_le.2 hlt]
  · simp [hlt, not_lt.1 hlt]

theorem metricEval_at (mv : String × ℚ) (t : ℚ) (h : thresholdFor mv.1 = some t)
    (h0 : ¬ t = 0) :
    metricEval mv =
      some { rtype := "metric", category := mv.1, value := jsRound mv.2,
             threshold := some t,
             status := if mv.2 ≤ t then RStatus.passed else RStatus.failed } := by
  simp only [metricEval, h, h0, if_neg, not_false_iff]
  by_cases hgt : t < mv.2
  · simp [hgt, not_le.2 hgt]
  · simp [hgt, not_lt.1 hgt]

theorem scoreResults_eq (r : Report) :
    (extractScores r).map scoreRecord =
      (extractScores r).map (fun cs =>
        { rtype := "score", category := cs.1, value := cs.2, threshold := some 90,
          status := if (90 : ℚ) ≤ (cs.2 : ℚ) then RStatus.passed
                    else RStatus.failed }) := by
  simp only [extractScores, List.map_cons, List.map_nil]
  rw [scoreRecord_at_90 _ thresholdFor_performance,
      scoreRecord_at_90 _ thresholdFor_accessibility,
      scoreRecord_at_90 _ thresholdFor_bp,
      scoreRecord_at_90 _ thresholdFor_seo]

theorem metricResults_eq (r : Report) :
    (extractMetrics r).filterMap metricEval =
      [ { rtype := "metric", category := "first-contentful-paint",
          value := jsRound r.audits.firstContentfulPaint, threshold := some 1800,
          status := if r.audits.firstContentfulPaint ≤ 1800 then RStatus.passed
                    else RStatus.failed }
      , { rtype := "metric", category := "largest-contentful-paint",
          value := jsRound r.audits.largestContentfulPaint, threshold := some 2500,
          status := if r.audits.largestContentfulPaint ≤ 2500 then RStatus.passed
                    else RStatus.failed }
      , { rtype := "metric", category := "first-input-delay",
          value := jsRound r.audits.maxPotentialFid, threshold := some 100,
          status := if r.audits.maxPotentialFid ≤ 100 then RStatus.passed
                    else RStatus.failed }
      , { rtype := "metric", category := "cumulative-layout-shift",
          value := jsRound r.audits.cumulativeLayoutShift, threshold := some (1/10),
          status := if r.audits.cumulativeLayoutShift ≤ 1/10 then RStatus.passed
                    else RStatus.failed }
      , { rtype := "metric", category := "speed-index",
          value := jsRound r.audits.speedIndex, threshold := some 3000,
          status := if r.audits.speedIndex ≤ 3000 then RStatus.passed
                    else RStatus.failed }
      , { rtype := "metric", category := "interactive",
          value := jsRound r.audits.interactive, threshold := some 3500,
          status := if r.audits.interactive ≤ 3500 then RStatus.passed
                    else RStatus.failed } ] := by
  have h1 := metricEval_at ("first-contentful-paint", r.audits.firstContentfulPaint)
    1800 thresholdFor_fcp (by norm_num)
  have h2 := metricEval_at ("largest-contentful-paint", r.audits.largestContentfulPaint)
    2500 thresholdFor_lcp (by norm_num)
  have h3 := metricEval_at ("first-input-delay", r.audits.maxPotentialFid)
    100 thresholdFor_fid (by norm_num)
  have h4 := metricEval_at ("cumulative-layout-shift", r.audits.cumulativeLayoutShift)
    (1/10) thresholdFor_cls (by norm_num)
  have h5 := metricEval_at ("speed-index", r.audits.speedIndex)
    3000 thresholdFor_si (by norm_num)
  have h6 := metricEval_at ("interactive", r.audits.interactive)
    3500 thresholdFor_tti (by norm_num)
  simp only [extractMetrics, List.filterMap_cons, List.filterMap_nil,
    h1, h2, h3, h4, h5, h6]

theorem results_eq (r : Report) :
    (checkThresholds (extractScores r) (extractMetrics r)).2 =
      (extractScores r).map scoreRecord ++ (extractMetrics r).filterMap metricEval := by
  rw [checkThresholds_eq]

theorem results_take4 (r : Report) :
    (checkThresholds (extractScores r) (extractMetrics r)).2.take 4 =
      (extractScores r).map scoreRecord := by
  rw [results_eq]
  have hlen : ((extractScores r).map scoreRecord).length = 4 := by
    simp [extractScores]
  rw [← hlen, List.take_left]

theorem results_drop4 (r : Report) :
    (checkThresholds (extractScores r) (extractMetrics r)).2.drop 4 =
      (extractMetrics r).filterMap metricEval := by
  rw [results_eq]
  have hlen : ((extractScores r).map scoreRecord).length = 4 := by
    simp [extractScores]
  rw [← hlen, List.drop_left]

theorem results_length (r : Report) :
    (checkThresholds (extractScores r) (extractMetrics r)).2.length =
      (extractScores r).length + (extractMetrics r).length := by
  rw [results_eq, List.length_append, List.length_map, metricResults_eq]
  simp [extractMetrics]

/-! ### Evaluation helpers for concrete inputs -/

theorem jsRound_eq_of (q : ℚ) (n : ℤ) (h1 : (n : ℚ) ≤ q + 1/2)
    (h2 : q + 1/2 < n + 1) : jsRound q = n := by
  rw [jsRound]
  exact Int.floor_eq_iff.2 ⟨h1, h2⟩

theorem jsRound_95 : jsRound ((95/100 : ℚ) * 100) = 95 :=
  jsRound_eq_of _ _ (by norm_num) (by norm_num)

theorem jsRound_100 : jsRound ((1 : ℚ) * 100) = 100 :=
  jsRound_eq_of _ _ (by norm_num) (by norm_num)

theorem passReport_flag :
    (checkThresholds (extractScores passReport) (extractMetrics passReport)).1 = true := by
  rw [checkThresholds_eq]
  simp only [extractScores, extractMetrics, passReport, List.all_cons, List.all_nil,
    scoreOk, metricOk, jsLtOpt, thresholdFor_performance, thresholdFor_accessibility,
    thresholdFor_bp, thresholdFor_seo, thresholdFor_fcp, thresholdFor_lcp,
    thresholdFor_fid, thresholdFor_cls, thresholdFor_si, thresholdFor_tti,
    jsRound_95, jsRound_100]
  norm_num

theorem genFailWorld_passed : (checkPerformance genFailWorld).passed = true := by
  simp only [checkPerformance, genFailWorld, passWorld]
  simpa using passReport_flag

/-! ### The claims -/

/-- C1: for any run that reads and parses the report (and whose HTML-report
write does not throw), the aggregate outcome is `failed` iff at least one
evaluated score or metric record is `failed`; evaluation is exhaustive, so
the result list carries one record per extracted score plus one per
extracted metric; and the exit status is 0 when the aggregate outcome is
passed and 1 when it is failed. -/
theorem claim_C1 (w : World) (r : Report) (hex : w.reportExists = true)
    (hp : w.parsedReport = some r) (hg : w.reportWriteFails = false) :
    ((checkPerformance w).passed = false ↔
      ∃ rec ∈ (checkPerformance w).results, rec.status = RStatus.failed) ∧
    (checkPerformance w).results.length =
      (extractScores r).length + (extractMetrics r).length ∧
    (checkPerformance w).exitCode =
      (if (checkPerformance w).passed then 0 else 1) := by
  have hout : checkPerformance w =
      { exitCode :=
          if (checkThresholds (extractScores r) (extractMetrics r)).1 then 0 else 1,
        finalHistory := savePerformanceHistory w (extractScores r) (extractMetrics r),
        results := (checkThresholds (extractScores r) (extractMetrics r)).2,
        passed := (checkThresholds (extractScores r) (extractMetrics r)).1,
        reportGenerated := true } := by
    simp [checkPerformance, hex, hp, hg]
  rw [hout]
  exact ⟨checkThresholds_failed_iff _ _, results_length r, rfl⟩

/-- Witness for C1 at a concrete healthy world. -/
theorem claim_C1_witness :
    ((checkPerformance passWorld).passed = false ↔
      ∃ rec ∈ (checkPerformance passWorld).results, rec.status = RStatus.failed) ∧
    (checkPerformance passWorld).results.length =
      (extractScores passReport).length + (extractMetrics passReport).length ∧
    (checkPerformance passWorld).exitCode =
      (if (checkPerformance passWorld).passed then 0 else 1) :=
  claim_C1 passWorld passReport rfl rfl rfl

/-- C2: each of the four category scores contributes a record whose value is
the rounded integer percentage, whose threshold is the table value 90, and
whose outcome is `passed` exactly when the score reaches the threshold
(ties pass). -/
theorem claim_C2 (r : Report) :
    (checkThresholds (extractScores r) (extractMetrics r)).2.take 4 =
      (extractScores r).map (fun cs =>
        { rtype := "score", category := cs.1, value := cs.2, threshold := some 90,
          status := if (90 : ℚ) ≤ (cs.2 : ℚ) then RStatus.passed
                    else RStatus.failed }) := by
  rw [results_take4, scoreResults_eq]

/-- C3: each of the six metrics contributes a record whose threshold is the
table value and whose outcome is `passed` exactly when the raw value is at
most the threshold (ties pass, strictly larger values fail). -/
theorem claim_C3 (r : Report) :
    (checkThresholds (extractScores r) (extractMetrics r)).2.drop 4 =
      [ { rtype := "metric", category := "first-contentful-paint",
          value := jsRound r.audits.firstContentfulPaint, threshold := some 1800,
          status := if r.audits.firstContentfulPaint ≤ 1800 then RStatus.passed
                    else RStatus.failed }
      , { rtype := "metric", category := "largest-contentful-paint",
          value := jsRound r.audits.largestContentfulPaint, threshold := some 2500,
          status := if r.audits.largestContentfulPaint ≤ 2500 then RStatus.passed
                    else RStatus.failed }
      , { rtype := "metric", category := "first-input-delay",
          value := jsRound r.audits.maxPotentialFid, threshold := some 100,
          status := if r.audits.maxPotentialFid ≤ 100 then RStatus.passed
                    else RStatus.failed }
      , { rtype := "metric", category := "cumulative-layout-shift",
          value := jsRound r.audits.cumulativeLayoutShift, threshold := some (1/10),
          status := if r.audits.cumulativeLayoutShift ≤ 1/10 then RStatus.passed
                    else RStatus.failed }
      , { rtype := "metric", category := "speed-index",
          value := jsRound r.audits.speedIndex, threshold := some 3000,
          status := if r.audits.speedIndex ≤ 3000 then RStatus.passed
                    else RStatus.failed }
      , { rtype := "metric", category := "interactive",
          value := jsRound r.audits.interactive, threshold := some 3500,
          status := if r.audits.interactive ≤ 3500 then RStatus.passed
                    else RStatus.failed } ] := by
  rw [results_drop4, metricResults_eq]

/-- C4: the saved history log never exceeds 50 entries; appending to a log
already holding 50 entries keeps exactly 50, dropping the entry previously
at index 0, preserving the order of the rest and placing the new record
last (and the evicted entry is absent whenever it does not also occur
elsewhere or equal the new record). -/
theorem claim_C4 (history : List HistoryEntry) (e : HistoryEntry) :
    (appendCapped history e).length ≤ 50 ∧
    (history.length = 50 →
      appendCapped history e = history.tail ++ [e] ∧
      (appendCapped history e).length = 50 ∧
      ∀ h0, history.head? = some h0 → h0 ∉ history.tail → ¬ h0 = e →
        h0 ∉ appendCapped history e) := by
  constructor
  · simp only [appendCapped]
    split_ifs with hlt
    · simp only [List.length_drop, List.length_append, List.length_singleton] at *
      omega
    · simp only [List.length_append, List.length_singleton] at *
      omega
  · intro h50
    rcases history with _ | ⟨a, t⟩
    · simp at h50
    · have hT : t.length = 49 := by simpa using h50
      have happ : appendCapped (a :: t) e = t ++ [e] := by
        simp only [appendCapped, List.cons_append, List.length_cons,
          List.length_append, List.length_singleton, hT]
        norm_num
      refine ⟨by rw [happ]; rfl, by rw [happ]; simp [hT], ?_⟩
      intro h0 hhead hmem hne
      rw [happ]
      have ha : a = h0 := by simpa using hhead
      subst ha
      simp only [List.mem_append, List.mem_singleton]
      rintro (hc | hc)
      · exact hmem hc
      · exact hne hc

/-- Witness for C4 at a 50-entry log. -/
theorem claim_C4_witness :
    fullHistory.length = 50 ∧
    appendCapped fullHistory newEntry = fullHistory.tail ++ [newEntry] ∧
    (appendCapped fullHistory newEntry).length = 50 :=
  ⟨by simp [fullHistory],
   ((claim_C4 fullHistory newEntry).2 (by simp [fullHistory])).1,
   ((claim_C4 fullHistory newEntry).2 (by simp [fullHistory])).2.1⟩

/-- C5: when the report file is absent the run exits with status 1, leaves
the history log untouched, and produces no report and no results. -/
theorem claim_C5 (w : World) (h : w.reportExists = false) :
    (checkPerformance w).exitCode = 1 ∧
    (checkPerformance w).finalHistory = w.history ∧
    (checkPerformance w).reportGenerated = false ∧
    (checkPerformance w).results = [] := by
  simp [checkPerformance, h]

/-- Witness for C5 at the world with the report file absent. -/
theorem claim_C5_witness :
    (checkPerformance missingWorld).exitCode = 1 ∧
    (checkPerformance missingWorld).finalHistory = missingWorld.history ∧
    (checkPerformance missingWorld).reportGenerated = false ∧
    (checkPerformance missingWorld).results = [] :=
  claim_C5 missingWorld rfl

/-- Closed form of a run that reads and parses the report. -/
theorem checkPerformance_run (w : World) (r : Report) (hex : w.reportExists = true)
    (hp : w.parsedReport = some r) :
    checkPerformance w =
      { exitCode := if w.reportWriteFails then 1
          else if (checkThresholds (extractScores r) (extractMetrics r)).1 then 0
          else 1,
        finalHistory := savePerformanceHistory w (extractScores r) (extractMetrics r),
        results := (checkThresholds (extractScores r) (extractMetrics r)).2,
        passed := (checkThresholds (extractScores r) (extractMetrics r)).1,
        reportGenerated := !w.reportWriteFails } := by
  by_cases hg : w.reportWriteFails = true <;> simp [checkPerformance, hex, hp, hg]

/-- C6: on any run that reaches evaluation the history append is attempted
regardless of the aggregate outcome; when the history I/O succeeds the
stored log becomes the capped append, when it throws the stored log is
unchanged, and in either case the exit status and the aggregate outcome
are exactly those of the same run with failing history I/O. -/
theorem claim_C6 (w : World) (r : Report) (hex : w.reportExists = true)
    (hp : w.parsedReport = some r) :
    ((checkPerformance w).finalHistory =
        savePerformanceHistory w (extractScores r) (extractMetrics r)) ∧
    (w.historyIOFails = false →
      (checkPerformance w).finalHistory =
        appendCapped w.history
          (mkHistoryData w (extractScores r) (extractMetrics r))) ∧
    (w.historyIOFails = true → (checkPerformance w).finalHistory = w.history) ∧
    (checkPerformance w).exitCode =
      (checkPerformance { w with historyIOFails := true }).exitCode ∧
    (checkPerformance w).passed =
      (checkPerformance { w with historyIOFails := true }).passed := by
  rw [checkPerformance_run w r hex hp,
      checkPerformance_run { w with historyIOFails := true } r hex hp]
  refine ⟨rfl, ?_, ?_, rfl, rfl⟩
  · intro hio
    simp [savePerformanceHistory, hio]
  · intro hio
    simp [savePerformanceHistory, hio]

/-- Witness for C6 at a concrete healthy world. -/
theorem claim_C6_witness :
    ((checkPerformance passWorld).finalHistory =
        savePerformanceHistory passWorld (extractScores passReport)
          (extractMetrics passReport)) ∧
    (passWorld.historyIOFails = false →
      (checkPerformance passWorld).finalHistory =
        appendCapped passWorld.history
          (mkHistoryData passWorld (extractScores passReport)
            (extractMetrics passReport))) ∧
    (passWorld.historyIOFails = true →
      (checkPerformance passWorld).finalHistory = passWorld.history) ∧
    (checkPerformance passWorld).exitCode =
      (checkPerformance { passWorld with historyIOFails := true }).exitCode ∧
    (checkPerformance passWorld).passed =
      (checkPerformance { passWorld with historyIOFails := true }).passed :=
  claim_C6 passWorld passReport rfl rfl

/-- C7: a `performance` fractional score of 0.895 rounds to the integer
percentage 90, the performance threshold is 90, and the resulting record
passes (inclusive boundary). -/
theorem claim_C7 :
    jsRound ((895/1000 : ℚ) * 100) = 90 ∧
    thresholdFor "performance" = some 90 ∧
    ∃ rec ∈ (checkThresholds (extractScores boundaryReport)
                (extractMetrics boundaryReport)).2,
      rec.rtype = "score" ∧ rec.category = "performance" ∧ rec.value = 90 ∧
      rec.threshold = some 90 ∧ rec.status = RStatus.passed := by
  have h90 : jsRound ((895/1000 : ℚ) * 100) = 90 :=
    jsRound_eq_of _ _ (by norm_num) (by norm_num)
  refine ⟨h90, thresholdFor_performance, ?_⟩
  refine ⟨{ rtype := "score", category := "performance", value := 90,
            threshold := some 90, status := RStatus.passed },
          ?_, rfl, rfl, rfl, rfl, rfl⟩
  have hmem : ({ rtype := "score", category := "performance", value := (90:ℤ),
                 threshold := some (90:ℚ), status := RStatus.passed } : EvalResult)
      ∈ (checkThresholds (extractScores boundaryReport)
          (extractMetrics boundaryReport)).2.take 4 := by
    rw [results_take4, scoreResults_eq]
    simp only [extractScores, boundaryReport, List.map_cons, List.map_nil, h90]
    norm_num
  exact List.take_subset _ _ hmem

/-- C8: a metric entry whose name has no row in the threshold table is
skipped entirely: deleting it from the metric list changes neither the
aggregate flag nor the result records. -/
theorem claim_C8 (name : String) (v : ℚ) (l1 l2 : List (String × ℚ))
    (scores : List (String × ℤ)) (h : thresholdFor name = none) :
    checkThresholds scores (l1 ++ (name, v) :: l2) =
      checkThresholds scores (l1 ++ l2) := by
  simp [checkThresholds, List.foldl_append, List.foldl_cons, metricStep, h]

/-- Witness for C8 at the unthresholded metric name `total-blocking-time`. -/
theorem claim_C8_witness :
    checkThresholds [] ([] ++ ("total-blocking-time", (300:ℚ)) :: []) =
      checkThresholds [] ([] ++ []) :=
  claim_C8 "total-blocking-time" 300 [] [] [] thresholdFor_tbt

/-- The over-threshold `first-contentful-paint` record produced by
`overRoundReport`: raw value 1800.3 fails, stored value rounds to 1800. -/
theorem overRound_fcp_mem :
    ({ rtype := "metric", category := "first-contentful-paint", value := (1800:ℤ),
       threshold := some (1800:ℚ), status := RStatus.failed } : EvalResult)
      ∈ (checkThresholds (extractScores overRoundReport)
          (extractMetrics overRoundReport)).2.drop 4 := by
  rw [results_drop4, metricResults_eq]
  have hv : jsRound ((18003/10 : ℚ)) = 1800 :=
    jsRound_eq_of _ _ (by norm_num) (by norm_num)
  simp only [overRoundReport, hv]
  norm_num

/-- C9: every evaluated metric record stores the rounded raw value while its
outcome compares the unrounded raw value against the threshold; and on a
concrete input whose raw value lies strictly between the threshold and the
threshold plus one half, the record is failed although its stored value
equals the threshold. -/
theorem claim_C9 (r : Report) (rec : EvalResult)
    (h : rec ∈ (checkThresholds (extractScores r) (extractMetrics r)).2.drop 4) :
    (∃ mv ∈ extractMetrics r, ∃ t, thresholdFor mv.1 = some t ∧
        rec.value = jsRound mv.2 ∧ rec.threshold = some t ∧
        (rec.status = RStatus.failed ↔ t < mv.2)) ∧
    ∃ rec2 ∈ (checkThresholds (extractScores overRoundReport)
                (extractMetrics overRoundReport)).2,
      rec2.status = RStatus.failed ∧ rec2.threshold = some ((rec2.value : ℚ)) := by
  constructor
  · rw [results_drop4] at h
    rcases List.mem_filterMap.1 h with ⟨mv, hmv, heval⟩
    rcases hth : thresholdFor mv.1 with _ | t
    · simp [metricEval, hth] at heval
    · by_cases h0 : t = 0
      · simp [metricEval, hth, h0] at heval
      · rw [metricEval_at mv t hth h0] at heval
        have hrec := Option.some.inj heval
        subst hrec
        refine ⟨mv, hmv, t, hth, rfl, rfl, ?_⟩
        by_cases hgt : t < mv.2
        · simp [not_le.2 hgt, hgt]
        · simp [not_lt.1 hgt, hgt]
  · refine ⟨{ rtype := "metric", category := "first-contentful-paint",
              value := 1800, threshold := some 1800, status := RStatus.failed },
            ?_, rfl, by norm_num⟩
    exact List.drop_subset _ _ overRound_fcp_mem

/-- Witness for C9 at the concrete record of `overRoundReport`. -/
theorem claim_C9_witness :
    (∃ mv ∈ extractMetrics overRoundReport, ∃ t, thresholdFor mv.1 = some t ∧
        (1800 : ℤ) = jsRound mv.2 ∧ (some (1800:ℚ) : Option ℚ) = some t ∧
        (RStatus.failed = RStatus.failed ↔ t < mv.2)) ∧
    ∃ rec2 ∈ (checkThresholds (extractScores overRoundReport)
                (extractMetrics overRoundReport)).2,
      rec2.status = RStatus.failed ∧ rec2.threshold = some ((rec2.value : ℚ)) :=
  claim_C9 overRoundReport
    { rtype := "metric", category := "first-contentful-paint", value := 1800,
      threshold := some 1800, status := RStatus.failed }
    overRound_fcp_mem

/-- C10: if the HTML-report write throws on a run whose every evaluated
score and metric passed, the run ends with exit status 1, not 0, and no
report document is produced. -/
theorem claim_C10 (w : World) (r : Report) (hex : w.reportExists = true)
    (hp : w.parsedReport = some r) (hfail : w.reportWriteFails = true)
    (_hpassed : (checkPerformance w).passed = true) :
    (checkPerformance w).exitCode = 1 ∧
    (checkPerformance w).reportGenerated = false := by
  rw [checkPerformance_run w r hex hp]
  simp [hfail]

/-- Witness for C10 at a concrete passing world whose report write throws. -/
theorem claim_C10_witness :
    (checkPerformance genFailWorld).exitCode = 1 ∧
    (checkPerformance genFailWorld).reportGenerated = false :=
  claim_C10 genFailWorld passReport rfl rfl rfl genFailWorld_passed

end PerfCheck
